import Mathlib

/-!
Verification of the `led` crate's alphanumeric subsystem
(`src/alphanumeric/mod.rs`): the `Character` encoder, the segment-pin
driver `LED`, and the spec-described matrix driver.

Machine integers (`u8`, `u16`, `char`) are embedded as `Nat` with explicit
bounds or masks where overflow or truncation matters.  Fallible Rust code
(`TryFrom`, slice indexing) is embedded with `Except` / `Option`.  Pin
writes (`OutputPin::set_low` / `set_high`) are embedded as an explicit
trace of `(pin, level)` events, folded into the pin-level state, so that
both the final levels and the exact sequence of writes of each operation
are visible.
-/

namespace Led

/-- The error type of `src/alphanumeric/mod.rs` (`enum Error { NonAscii }`). -/
inductive Error : Type
  | NonAscii : Error
  deriving DecidableEq, Repr

/-- The `Character` struct of `src/alphanumeric/mod.rs`: a base byte
(embedded as a `Nat`, always produced `< 256`) and a decimal-point flag. -/
structure Character : Type where
  base : Nat
  point : Bool
  deriving DecidableEq, Repr

/-- `impl TryFrom<u8> for Character`: succeeds iff `b.is_ascii()`,
which for a byte means `b <= 127`; on success the byte is stored
unchanged with `point = false`. -/
def Character.tryFromByte (b : Nat) : Except Error Character :=
  if b ≤ 127 then
    Except.ok { base := b, point := false }
  else
    Except.error Error.NonAscii

/-- `impl TryFrom<char> for Character`: succeeds iff `c.is_ascii()`,
which for a unicode scalar means its code point is `<= 127`; on success
the scalar is cast to `u8` (`c as u8`, embedded as `% 256`) with
`point = false`. -/
def Character.tryFromChar (c : Nat) : Except Error Character :=
  if c ≤ 127 then
    Except.ok { base := c % 256, point := false }
  else
    Except.error Error.NonAscii

/-- Modelled from the spec: `Character::with_decimal_point` (the method is
described in the spec but absent from the sources under `src/`): it
returns a new `Character` with `point = true`, leaving `base` untouched. -/
def Character.with_decimal_point (c : Character) : Character :=
  { c with point := true }

/-- Modelled from the spec: the value of the `glyph!("    .")` macro
invocation used by `LED::set` (the `font` module's macro is absent from
the sources under `src/`).  The spec fixes it as the decimal-point bit
pattern, the bit driven onto the decimal-point pin by
`output_second_half`, i.e. bit 0 of the glyph. -/
def glyphPointPattern : Nat := 1

/-- Modelled from the spec: the value of the `glyph!("     ")` macro
invocation used by `LED::set` (absent from the sources under `src/`).
The spec's glyph formula `MAP[base & 0x7F] | (point ? POINT_BIT : 0)`
fixes it as the all-segments-off pattern 0. -/
def glyphBlankPattern : Nat := 0

/-- The eight output pins owned by the segment-pin driver `LED`:
segments A through G plus the decimal point. -/
inductive Pin : Type
  | segA | segB | segC | segD | segE | segF | segG | dp
  deriving DecidableEq, Repr

/-- One pin-write event: `(p, true)` is `p.set_high()`,
`(p, false)` is `p.set_low()`. -/
abbrev PinWrite : Type := Pin × Bool

/-- The segment-pin driver struct `LED` of `src/alphanumeric/mod.rs`:
the latched 16-bit `glyph` plus the eight owned pins, each embedded as
its current output level (`true` = high). -/
structure LED : Type where
  glyph : Nat
  seg_a : Bool
  seg_b : Bool
  seg_c : Bool
  seg_d : Bool
  seg_e : Bool
  seg_f : Bool
  seg_g : Bool
  point : Bool
  deriving DecidableEq, Repr

/-- Apply one pin-write event to the driver's pin levels. -/
def LED.applyWrite (l : LED) (w : PinWrite) : LED :=
  match w.1 with
  | Pin.segA => { l with seg_a := w.2 }
  | Pin.segB => { l with seg_b := w.2 }
  | Pin.segC => { l with seg_c := w.2 }
  | Pin.segD => { l with seg_d := w.2 }
  | Pin.segE => { l with seg_e := w.2 }
  | Pin.segF => { l with seg_f := w.2 }
  | Pin.segG => { l with seg_g := w.2 }
  | Pin.dp => { l with point := w.2 }

/-- Fold a trace of pin writes into the driver state. -/
def LED.applyWrites (l : LED) (ws : List PinWrite) : LED :=
  ws.foldl LED.applyWrite l

/-- `LED::new`: constructs the driver from the eight pin handles (their
initial levels are whatever the caller hands over) with `glyph: 0`. -/
def LED.new (a b c d e f g p : Bool) : LED :=
  { glyph := 0, seg_a := a, seg_b := b, seg_c := c, seg_d := d,
    seg_e := e, seg_f := f, seg_g := g, point := p }

/-- The write sequence issued by `LED::output_first_half` for a latched
glyph `g`: each segment pin A..G is set high iff the corresponding mask
`0x8000 .. 0x0200` hits a set bit, and the decimal-point pin is set low
unconditionally (`self.point.set_low()`). -/
def firstHalfWrites (g : Nat) : List PinWrite :=
  [ (Pin.segA, g &&& 0x8000 != 0),
    (Pin.segB, g &&& 0x4000 != 0),
    (Pin.segC, g &&& 0x2000 != 0),
    (Pin.segD, g &&& 0x1000 != 0),
    (Pin.segE, g &&& 0x0800 != 0),
    (Pin.segF, g &&& 0x0400 != 0),
    (Pin.segG, g &&& 0x0200 != 0),
    (Pin.dp, false) ]

/-- The write sequence issued by `LED::output_second_half` for a latched
glyph `g`: each segment pin A..G is set high iff the corresponding mask
`0x0080 .. 0x0002` hits a set bit, and the decimal-point pin follows
mask `0x0001`. -/
def secondHalfWrites (g : Nat) : List PinWrite :=
  [ (Pin.segA, g &&& 0x0080 != 0),
    (Pin.segB, g &&& 0x0040 != 0),
    (Pin.segC, g &&& 0x0020 != 0),
    (Pin.segD, g &&& 0x0010 != 0),
    (Pin.segE, g &&& 0x0008 != 0),
    (Pin.segF, g &&& 0x0004 != 0),
    (Pin.segG, g &&& 0x0002 != 0),
    (Pin.dp, g &&& 0x0001 != 0) ]

/-- `LED::output_first_half`: issues `firstHalfWrites` on the pins and
touches nothing else; returns the updated state and the write trace. -/
def LED.output_first_half (l : LED) : LED × List PinWrite :=
  (l.applyWrites (firstHalfWrites l.glyph), firstHalfWrites l.glyph)

/-- `LED::output_second_half`: issues `secondHalfWrites` on the pins and
touches nothing else; returns the updated state and the write trace. -/
def LED.output_second_half (l : LED) : LED × List PinWrite :=
  (l.applyWrites (secondHalfWrites l.glyph), secondHalfWrites l.glyph)

/-- `<LED as crate::LED>::set`:
`self.glyph = font::MAP[c.base as usize & 0x7F] | (c.point ? glyph!("    .") : glyph!("     "))`.
The table `MAP` (its values live in the absent `font` module) is passed
explicitly; the Rust slice indexing, which panics out of range, is
embedded as `List.get?` with `none` standing for the panic.  No pin is
written: the trace is empty. -/
def LED.set (MAP : List Nat) (l : LED) (c : Character) :
    Option (LED × List PinWrite) :=
  match MAP.get? (c.base &&& 0x7F) with
  | some g =>
      some ({ l with
              glyph := g ||| (if c.point then glyphPointPattern
                              else glyphBlankPattern) }, [])
  | none => none

end Led

namespace Led

/-! ### Helper lemmas -/

/-- Bridge between the code's mask tests and bit indices: testing a
power-of-two mask against a glyph is testing the corresponding bit. -/
theorem and_two_pow_bne_zero (g k : Nat) :
    (g &&& 2 ^ k != 0) = g.testBit k := by
  rw [Nat.and_two_pow]
  cases h : g.testBit k <;> simp [h]

/-- A 128-entry table is always hit in range by a 7-bit-masked index. -/
theorem mask_lt_length {MAP : List Nat} (h : MAP.length = 128) (b : Nat) :
    b &&& 0x7F < MAP.length := by
  have hle : b &&& 0x7F ≤ 0x7F := Nat.and_le_right
  omega

/-- In-range indexing of the table succeeds, returning the `getD` value. -/
theorem get?_eq_getD {MAP : List Nat} {i : Nat} (h : i < MAP.length) :
    MAP.get? i = some (MAP.getD i 0) := by
  rw [List.getD_eq_getElem?_getD, List.get?_eq_getElem?,
    List.getElem?_eq_getElem h]
  rfl

end Led

namespace Led

/-- Mask tests written with hex literals are bit tests. -/
theorem and_mask_bne (g k m : Nat) (hm : m = 2 ^ k) :
    (g &&& m != 0) = g.testBit k := by
  subst hm
  exact and_two_pow_bne_zero g k

/-- Bits 0..7 of a low byte are the glyph's bits 0..7. -/
theorem low_byte_testBit (g i : Nat) (hi : i < 8) :
    (g &&& 0xFF).testBit i = g.testBit i := by
  rw [Nat.testBit_and]
  have h : (0xFF : Nat).testBit i = true := by interval_cases i <;> decide
  simp [h]

/-- Bits 0..7 of the shifted high byte are the glyph's bits 8..15. -/
theorem high_byte_testBit (g i : Nat) (hi : i < 8) :
    ((g >>> 8) &&& 0xFF).testBit i = g.testBit (8 + i) := by
  rw [Nat.testBit_and, Nat.testBit_shiftRight]
  have h : (0xFF : Nat).testBit i = true := by interval_cases i <;> decide
  simp [h]

/-! ### Claim theorems -/

/-- C1: converting a byte `b <= 127` to a `Character` succeeds with
`base = b`, `point = false`; a byte `b >= 128` fails with `NonAscii`;
converting a unicode scalar succeeds with `base` equal to its code point
exactly when it is ASCII (`<= 127`) and fails with `NonAscii` otherwise. -/
theorem tryFrom_ascii_boundary (b c : Nat) (hb : b ≤ 255) (hc : c ≤ 1114111) :
    (b ≤ 127 → Character.tryFromByte b = Except.ok { base := b, point := false }) ∧
    (128 ≤ b → Character.tryFromByte b = Except.error Error.NonAscii) ∧
    (c ≤ 127 → Character.tryFromChar c = Except.ok { base := c, point := false }) ∧
    (128 ≤ c → Character.tryFromChar c = Except.error Error.NonAscii) := by
  refine ⟨fun h => ?_, fun h => ?_, fun h => ?_, fun h => ?_⟩
  · simp only [Character.tryFromByte]
    rw [if_pos h]
  · simp only [Character.tryFromByte]
    rw [if_neg (by omega)]
  · have hcm : c % 256 = c := Nat.mod_eq_of_lt (by omega)
    simp only [Character.tryFromChar]
    rw [if_pos h, hcm]
  · simp only [Character.tryFromChar]
    rw [if_neg (by omega)]

/-- Witness for `tryFrom_ascii_boundary` at concrete inputs 65, 200
and the non-ASCII scalar 955. -/
theorem tryFrom_ascii_boundary_witness :
    Character.tryFromByte 65 = Except.ok { base := 65, point := false } ∧
    Character.tryFromByte 200 = Except.error Error.NonAscii ∧
    Character.tryFromChar 955 = Except.error Error.NonAscii :=
  ⟨(tryFrom_ascii_boundary 65 955 (by decide) (by decide)).1 (by decide),
   (tryFrom_ascii_boundary 200 955 (by decide) (by decide)).2.1 (by decide),
   (tryFrom_ascii_boundary 200 955 (by decide) (by decide)).2.2.2 (by decide)⟩

/-- C2: `set` latches the glyph to `MAP[c.base &&& 0x7F]` OR'd with the
decimal-point pattern when `c.point`, and to `MAP[c.base &&& 0x7F]`
alone when not, for every previous driver state. -/
theorem set_latches_glyph (MAP : List Nat) (l : LED) (c : Character)
    (h : MAP.length = 128) :
    LED.set MAP l c =
      some ({ l with glyph :=
        if c.point then MAP.getD (c.base &&& 0x7F) 0 ||| glyphPointPattern
        else MAP.getD (c.base &&& 0x7F) 0 }, []) := by
  unfold LED.set
  rw [get?_eq_getD (mask_lt_length h c.base)]
  cases hp : c.point <;> simp [hp, glyphPointPattern, glyphBlankPattern]

/-- Witness for `set_latches_glyph`: a 128-entry table, character code
56 with the point flag set, starting from a fresh driver. -/
theorem set_latches_glyph_witness :
    LED.set (List.range 128)
        (LED.new false false false false false false false false)
        { base := 56, point := true } =
      some ({ glyph := 57, seg_a := false, seg_b := false, seg_c := false,
              seg_d := false, seg_e := false, seg_f := false, seg_g := false,
              point := false }, []) := by
  rw [set_latches_glyph (List.range 128)
    (LED.new false false false false false false false false)
    { base := 56, point := true } (by simp)]
  decide

/-- C3: `output_first_half` drives segment pins A..G from bits 15 down
to 9 of the latched glyph (bit set means pin high) and always drives the
decimal-point pin low, for every driver state — in particular
independently of bit 8 and of any point flag. -/
theorem first_half_drives_high_bits (l : LED) :
    (l.output_first_half).1.seg_a = l.glyph.testBit 15 ∧
    (l.output_first_half).1.seg_b = l.glyph.testBit 14 ∧
    (l.output_first_half).1.seg_c = l.glyph.testBit 13 ∧
    (l.output_first_half).1.seg_d = l.glyph.testBit 12 ∧
    (l.output_first_half).1.seg_e = l.glyph.testBit 11 ∧
    (l.output_first_half).1.seg_f = l.glyph.testBit 10 ∧
    (l.output_first_half).1.seg_g = l.glyph.testBit 9 ∧
    (l.output_first_half).1.point = false :=
  ⟨and_mask_bne l.glyph 15 0x8000 (by norm_num),
   and_mask_bne l.glyph 14 0x4000 (by norm_num),
   and_mask_bne l.glyph 13 0x2000 (by norm_num),
   and_mask_bne l.glyph 12 0x1000 (by norm_num),
   and_mask_bne l.glyph 11 0x0800 (by norm_num),
   and_mask_bne l.glyph 10 0x0400 (by norm_num),
   and_mask_bne l.glyph 9 0x0200 (by norm_num),
   rfl⟩

/-- C4: `output_second_half` drives segment pins A..G from bits 7 down
to 1 of the latched glyph (bit set means pin high) and drives the
decimal-point pin high exactly when bit 0 is set, for every driver
state. -/
theorem second_half_drives_low_bits (l : LED) :
    (l.output_second_half).1.seg_a = l.glyph.testBit 7 ∧
    (l.output_second_half).1.seg_b = l.glyph.testBit 6 ∧
    (l.output_second_half).1.seg_c = l.glyph.testBit 5 ∧
    (l.output_second_half).1.seg_d = l.glyph.testBit 4 ∧
    (l.output_second_half).1.seg_e = l.glyph.testBit 3 ∧
    (l.output_second_half).1.seg_f = l.glyph.testBit 2 ∧
    (l.output_second_half).1.seg_g = l.glyph.testBit 1 ∧
    (l.output_second_half).1.point = l.glyph.testBit 0 :=
  ⟨and_mask_bne l.glyph 7 0x0080 (by norm_num),
   and_mask_bne l.glyph 6 0x0040 (by norm_num),
   and_mask_bne l.glyph 5 0x0020 (by norm_num),
   and_mask_bne l.glyph 4 0x0010 (by norm_num),
   and_mask_bne l.glyph 3 0x0008 (by norm_num),
   and_mask_bne l.glyph 2 0x0004 (by norm_num),
   and_mask_bne l.glyph 1 0x0002 (by norm_num),
   and_mask_bne l.glyph 0 0x0001 (by norm_num)⟩

/-- C5: `set` performs no pin writes: its write trace is empty, and every
pin level is exactly what it was before; only the glyph field changes. -/
theorem set_performs_no_pin_writes (MAP : List Nat) (l : LED)
    (c : Character) (h : MAP.length = 128) :
    ∃ l', LED.set MAP l c = some (l', []) ∧
      l'.seg_a = l.seg_a ∧ l'.seg_b = l.seg_b ∧ l'.seg_c = l.seg_c ∧
      l'.seg_d = l.seg_d ∧ l'.seg_e = l.seg_e ∧ l'.seg_f = l.seg_f ∧
      l'.seg_g = l.seg_g ∧ l'.point = l.point := by
  refine ⟨{ l with glyph := MAP.getD (c.base &&& 0x7F) 0 |||
      (if c.point then glyphPointPattern else glyphBlankPattern) },
    ?_, rfl, rfl, rfl, rfl, rfl, rfl, rfl, rfl⟩
  unfold LED.set
  rw [get?_eq_getD (mask_lt_length h c.base)]

/-- Witness for `set_performs_no_pin_writes` on a 128-entry table and
character code 65. -/
theorem set_performs_no_pin_writes_witness :
    ∃ l', LED.set (List.range 128)
        (LED.new true false true false true false true false)
        { base := 65, point := false } = some (l', []) ∧
      l'.seg_a = (LED.new true false true false true false true false).seg_a ∧
      l'.seg_b = (LED.new true false true false true false true false).seg_b ∧
      l'.seg_c = (LED.new true false true false true false true false).seg_c ∧
      l'.seg_d = (LED.new true false true false true false true false).seg_d ∧
      l'.seg_e = (LED.new true false true false true false true false).seg_e ∧
      l'.seg_f = (LED.new true false true false true false true false).seg_f ∧
      l'.seg_g = (LED.new true false true false true false true false).seg_g ∧
      l'.point = (LED.new true false true false true false true false).point :=
  set_performs_no_pin_writes (List.range 128)
    (LED.new true false true false true false true false)
    { base := 65, point := false } (by simp)

/-- C6: `with_decimal_point` is a pure builder: the result has
`point = true` and the same `base`, and the argument value itself is
untouched (the embedding is purely functional). -/
theorem with_decimal_point_pure (c : Character) :
    (c.with_decimal_point).point = true ∧
    (c.with_decimal_point).base = c.base :=
  ⟨rfl, rfl⟩

/-- C7: the table access in `set` is always in range: the index is the
base masked to 7 bits, below the 128-entry table length, so `set` never
hits the out-of-range (panic) branch. -/
theorem set_index_always_in_range (MAP : List Nat) (l : LED)
    (c : Character) (h : MAP.length = 128) :
    c.base &&& 0x7F < MAP.length ∧ (LED.set MAP l c).isSome = true := by
  refine ⟨mask_lt_length h c.base, ?_⟩
  unfold LED.set
  rw [get?_eq_getD (mask_lt_length h c.base)]
  rfl

/-- Witness for `set_index_always_in_range`, with a base byte above the
ASCII range to exercise the masking. -/
theorem set_index_always_in_range_witness :
    (200 : Nat) &&& 0x7F < (List.range 128).length ∧
    (LED.set (List.range 128)
      (LED.new false false false false false false false false)
      { base := 200, point := true }).isSome = true :=
  set_index_always_in_range (List.range 128)
    (LED.new false false false false false false false false)
    { base := 200, point := true } (by simp)

/-- C9: a freshly constructed driver has glyph 0, and either half-output
call on it drives every segment pin and the decimal-point pin low. -/
theorem new_driver_blank (a b c d e f g p : Bool) :
    (LED.new a b c d e f g p).glyph = 0 ∧
    ((LED.new a b c d e f g p).output_first_half).1 =
      { glyph := 0, seg_a := false, seg_b := false, seg_c := false,
        seg_d := false, seg_e := false, seg_f := false, seg_g := false,
        point := false } ∧
    ((LED.new a b c d e f g p).output_second_half).1 =
      { glyph := 0, seg_a := false, seg_b := false, seg_c := false,
        seg_d := false, seg_e := false, seg_f := false, seg_g := false,
        point := false } := by
  refine ⟨rfl, ?_, ?_⟩ <;>
    simp [LED.new, LED.output_first_half, LED.output_second_half,
      LED.applyWrites, firstHalfWrites, secondHalfWrites, LED.applyWrite]

/-- C10: neither half-output call modifies the latched glyph, so the two
halves can be repeated in any order without changing the pending
character; among the driver's operations only `set` writes the glyph. -/
theorem halves_preserve_glyph (l : LED) :
    (l.output_first_half).1.glyph = l.glyph ∧
    (l.output_second_half).1.glyph = l.glyph :=
  ⟨rfl, rfl⟩

/-! ### Matrix driver (modelled from the spec) -/

/-- Modelled from the spec: the glyph the Matrix Driver computes for a
`Character` (the matrix driver is absent from the sources under `src/`):
`lookup(character.base) | (character.point ? decimal_point_pattern : 0)`,
with the lookup masked to 7 bits as everywhere else. -/
def matrixGlyph (MAP : List Nat) (c : Character) : Nat :=
  MAP.getD (c.base &&& 0x7F) 0 |||
    (if c.point then glyphPointPattern else glyphBlankPattern)

/-- Modelled from the spec: expansion of one column byte into its 8 row
states, bit 0 = row 0 through bit 7 = row 7. -/
def columnRows (b : Nat) : List Bool :=
  [b.testBit 0, b.testBit 1, b.testBit 2, b.testBit 3,
   b.testBit 4, b.testBit 5, b.testBit 6, b.testBit 7]

/-- Modelled from the spec: the Matrix Driver's `set` (absent from the
sources under `src/`): computes the glyph, splits it into its low and
high byte, and issues one column write per column — the low byte's rows
to column 0, the high byte's rows to column 1. -/
def matrixSet (MAP : List Nat) (c : Character) : List (Nat × List Bool) :=
  [ (0, columnRows (matrixGlyph MAP c &&& 0xFF)),
    (1, columnRows ((matrixGlyph MAP c >>> 8) &&& 0xFF)) ]

/-- C8: the Matrix Driver's `set` performs exactly two column writes,
to columns 0 and 1; the rows written to column 0 are bits 0..7 of the
glyph and the rows written to column 1 are bits 8..15, and both are
functions of the `Character` argument alone. -/
theorem matrix_set_two_column_writes (MAP : List Nat) (c : Character) :
    (matrixSet MAP c).length = 2 ∧
    (matrixSet MAP c).map Prod.fst = [0, 1] ∧
    (∀ i, i < 8 →
      ((matrixSet MAP c).getD 0 (0, [])).2.getD i false =
        (matrixGlyph MAP c).testBit i) ∧
    (∀ i, i < 8 →
      ((matrixSet MAP c).getD 1 (0, [])).2.getD i false =
        (matrixGlyph MAP c).testBit (8 + i)) := by
  refine ⟨rfl, rfl, ?_, ?_⟩
  · intro i hi
    have hlow := low_byte_testBit (matrixGlyph MAP c) i hi
    interval_cases i <;> simpa [matrixSet, columnRows] using hlow
  · intro i hi
    have hhigh := high_byte_testBit (matrixGlyph MAP c) i hi
    interval_cases i <;> simpa [matrixSet, columnRows] using hhigh

/-- Witness for `matrix_set_two_column_writes` on a 128-entry table and
character code 56 with the point flag set. -/
theorem matrix_set_two_column_writes_witness :
    (matrixSet (List.range 128) { base := 56, point := true }).length = 2 ∧
    ((matrixSet (List.range 128) { base := 56, point := true }).getD 0
        (0, [])).2.getD 3 false =
      (matrixGlyph (List.range 128) { base := 56, point := true }).testBit 3 :=
  ⟨(matrix_set_two_column_writes (List.range 128)
      { base := 56, point := true }).1,
   (matrix_set_two_column_writes (List.range 128)
      { base := 56, point := true }).2.2.1 3 (by decide)⟩

end Led
